import Mathlib

/-!
Verification of the sunset-quality prediction core (`sunset_bot.py` and
`train_model.py`, both emitted by `create_sunset_bot.sh`).

The embedding models the Python source over exact rationals (`ℚ`):
* `predict` mirrors `SunsetPredictor.predict` (lines 55-100);
* `process_feedback_msg` mirrors the body of `SunsetBot.process_feedback`
  for one inbound message (lines 293-318), with the SQL
  `UPDATE ... WHERE actual_quality IS NULL ORDER BY created_at DESC LIMIT 1`
  given its documented SQLite semantics: the single unresolved row with the
  greatest `created_at` is mutated;
* `calculate_model_accuracy`, `analyze_feature_correlations` and
  `suggest_weight_adjustments` mirror the report functions of
  `train_model.py` (a report that the source merely prints is modelled as
  the computed value, `none` standing for the "insufficient data" notice).
-/

/-- The weather dict handed to `SunsetPredictor.predict`: every field the
scorer reads is accessed with `dict.get(key, default)`, hence optional. -/
structure WeatherData where
  cloud_cover : Option ℚ
  humidity : Option ℚ
  visibility : Option ℚ
  pm25 : Option ℚ
deriving DecidableEq

/-- The weight configuration of `SunsetPredictor` (`load_weights`). -/
structure Weights where
  cloud_cover_optimal : ℚ
  cloud_cover_weight : ℚ
  humidity_weight : ℚ
  visibility_weight : ℚ
  pollution_weight : ℚ
  dust_weight : ℚ
deriving DecidableEq

/-- `default_weights` of `SunsetPredictor.load_weights` (lines 36-43). -/
def default_weights : Weights :=
  { cloud_cover_optimal := 4/10
    cloud_cover_weight := 3
    humidity_weight := 3/2
    visibility_weight := 2
    pollution_weight := 1
    dust_weight := 5/2 }

/-- `SunsetPredictor.predict` (lines 55-100), term by term:
baseline 5.0; cloud term minus the constant 1.5; humidity term minus the
constant 0.75; visibility term minus the constant 1.0; the non-monotonic
dust term; final clamp of the sum to [1,10]. The function is total: it is
defined for every rational input and every weight configuration. -/
def predict (w : Weights) (d : WeatherData) : ℚ :=
  let score : ℚ := 5
  let cloud_cover := d.cloud_cover.getD 50
  let cloud_deviation := abs (cloud_cover - w.cloud_cover_optimal * 100)
  let cloud_score := (100 - cloud_deviation) / 100 * w.cloud_cover_weight
  let score := score + (cloud_score - 3/2)
  let humidity := d.humidity.getD 60
  let humidity_score := (100 - humidity) / 100 * w.humidity_weight
  let score := score + (humidity_score - 3/4)
  let visibility := d.visibility.getD 10000
  let visibility_km := visibility / 1000
  let visibility_score := min (visibility_km / 10) 1 * w.visibility_weight
  let score := score + (visibility_score - 1)
  let pm25 := d.pm25.getD 15
  let dust_score : ℚ :=
    if 10 ≤ pm25 ∧ pm25 ≤ 35 then w.dust_weight * (1/2)
    else if pm25 < 10 then -w.dust_weight * (3/10)
    else -w.dust_weight * (1/2)
  let score := score + dust_score
  max 1 (min 10 score)

/-- `SunsetBot.run_prediction` (lines 250-264) hands the fetched weather
dict to the predictor unchanged: no field is transformed before scoring. -/
def run_prediction_score (w : Weights) (d : WeatherData) : ℚ :=
  predict w d

/-- The running score of `predict` just before the dust term is added
(lines 70-87): baseline plus the cloud, humidity and visibility terms. -/
def score_before_dust (w : Weights) (d : WeatherData) : ℚ :=
  let score : ℚ := 5
  let cloud_cover := d.cloud_cover.getD 50
  let cloud_deviation := abs (cloud_cover - w.cloud_cover_optimal * 100)
  let cloud_score := (100 - cloud_deviation) / 100 * w.cloud_cover_weight
  let score := score + (cloud_score - 3/2)
  let humidity := d.humidity.getD 60
  let humidity_score := (100 - humidity) / 100 * w.humidity_weight
  let score := score + (humidity_score - 3/4)
  let visibility := d.visibility.getD 10000
  let visibility_km := visibility / 1000
  let visibility_score := min (visibility_km / 10) 1 * w.visibility_weight
  score + (visibility_score - 1)

/-- Written from the spec's wording of the scoring algorithm (§4.1): each
sub-score is zero-centered against the configured weight itself — the
cloud term subtracts half of `cloudCoverWeight`, the humidity term half of
`humidityWeight`, and the visibility term the full `visibilityWeight` —
rather than against fixed constants. Used to compare the spec's formula
with the source's `predict`. -/
def predict_spec_centering (w : Weights) (d : WeatherData) : ℚ :=
  let cloud_cover := d.cloud_cover.getD 50
  let cloud_deviation := abs (cloud_cover - w.cloud_cover_optimal * 100)
  let cloud_term :=
    (100 - cloud_deviation) / 100 * w.cloud_cover_weight - w.cloud_cover_weight / 2
  let humidity := d.humidity.getD 60
  let humidity_term :=
    (100 - humidity) / 100 * w.humidity_weight - w.humidity_weight / 2
  let visibility := d.visibility.getD 10000
  let visibility_term :=
    min (visibility / 1000 / 10) 1 * w.visibility_weight - w.visibility_weight
  let pm25 := d.pm25.getD 15
  let dust_term : ℚ :=
    if 10 ≤ pm25 ∧ pm25 ≤ 35 then (1/2) * w.dust_weight
    else if pm25 < 10 then -((3/10) * w.dust_weight)
    else -((1/2) * w.dust_weight)
  max 1 (min 10 (5 + cloud_term + humidity_term + visibility_term + dust_term))

/-- Written from the spec's wording (§3 invariant): `cloudCoverPct` and
`humidityPct` clamped to [0,100] before scoring. -/
def clamp_pct (x : ℚ) : ℚ := max 0 (min 100 x)

/-- Written from the spec's wording (§3 invariant): the observation with
its cloud-cover and humidity fields clamped to [0,100]. -/
def clamp_observation (d : WeatherData) : WeatherData :=
  { d with
    cloud_cover := d.cloud_cover.map clamp_pct
    humidity := d.humidity.map clamp_pct }

/-- A row of the `predictions` table (lines 175-186). `created_at` is the
`TIMESTAMP` column, modelled as a natural number; `actual_quality` is the
nullable feedback column; the informational text columns (`date`,
`sunset_time`, `weather_data`) do not influence any operation modelled
here and are carried by `weather_data` alone. -/
structure PredictionRecord where
  created_at : ℕ
  predicted_quality : ℚ
  actual_quality : Option ℤ
  feedback_time : Option ℕ
  weather_data : WeatherData
deriving DecidableEq

/-- One inbound Telegram message as read by `process_feedback`
(lines 294-296): its text and the chat id the confirmation is sent to. -/
structure Message where
  text : String
  chat_id : ℤ
deriving DecidableEq

/-- A nonempty all-digit run parsed to its value, `none` otherwise. -/
def parse_digits (cs : List Char) : Option ℕ :=
  if cs = [] then none
  else
    cs.foldl
      (fun acc c =>
        acc.bind fun n => if c.isDigit then some (n * 10 + (c.toNat - 48)) else none)
      (some 0)

/-- Python's `str.strip()` on a character list: leading and trailing
whitespace removed. -/
def python_strip (cs : List Char) : List Char :=
  ((cs.dropWhile Char.isWhitespace).reverse.dropWhile Char.isWhitespace).reverse

/-- Python's `int(msg.get('text', '').strip())` (lines 296-300): strip
surrounding whitespace, then read an optional sign followed by decimal
digits; a `ValueError` is modelled as `none`. -/
def pythonInt (s : String) : Option ℤ :=
  match python_strip s.toList with
  | '-' :: rest => (parse_digits rest).map fun n => -(n : ℤ)
  | '+' :: rest => (parse_digits rest).map fun n => (n : ℤ)
  | cs => (parse_digits cs).map fun n => (n : ℤ)

/-- The rating a message text yields, when the reconciler accepts it:
the stripped text must parse as an integer in [1,10] (lines 296-301). -/
def accepted_rating (text : String) : Option ℤ :=
  match pythonInt text with
  | some r => if 1 ≤ r ∧ r ≤ 10 then some r else none
  | none => none

/-- The `created_at` of the unresolved row the SQL `UPDATE` targets: the
greatest `created_at` among rows with `actual_quality IS NULL`
(`ORDER BY created_at DESC LIMIT 1`, lines 303-308); `none` when every
row is resolved. -/
def latest_unresolved_time (db : List PredictionRecord) : Option ℕ :=
  (db.filter fun r => r.actual_quality.isNone).foldl
    (fun acc r =>
      match acc with
      | none => some r.created_at
      | some t => some (max t r.created_at))
    none

/-- Applies the `SET` clause of the `UPDATE` (line 305) to the first
unresolved row carrying `created_at = t`, leaving every other row
untouched. -/
def resolve_first_at (rating : ℤ) (now : ℕ) (t : ℕ) :
    List PredictionRecord → List PredictionRecord
  | [] => []
  | r :: rs =>
    if r.actual_quality = none ∧ r.created_at = t then
      { r with actual_quality := some rating, feedback_time := some now } :: rs
    else r :: resolve_first_at rating now t rs

/-- The body of `SunsetBot.process_feedback` for a single inbound message
(lines 294-318): strip the text, try `int(...)`; on a rating in [1,10]
run the `UPDATE` against the unresolved row with the greatest
`created_at` (a no-op when none exists) and send the confirmation
unconditionally; any other text falls through silently. Returns the new
table together with the list of `(chat_id, rating)` confirmations sent. -/
def process_feedback_msg (db : List PredictionRecord) (now : ℕ) (msg : Message) :
    List PredictionRecord × List (ℤ × ℤ) :=
  match pythonInt msg.text with
  | none => (db, [])
  | some rating =>
    if 1 ≤ rating ∧ rating ≤ 10 then
      let db2 :=
        match latest_unresolved_time db with
        | none => db
        | some t => resolve_first_at rating now t db
      (db2, [(msg.chat_id, rating)])
    else (db, [])

/-- `SunsetBot.process_feedback` over the whole update list (line 293):
each message is processed in order against the evolving table. -/
def process_feedback (db : List PredictionRecord) (now : ℕ) (msgs : List Message) :
    List PredictionRecord × List (ℤ × ℤ) :=
  msgs.foldl
    (fun acc m =>
      let r := process_feedback_msg acc.1 now m
      (r.1, acc.2 ++ r.2))
    (db, [])

/-- A resolved row as `train_model.load_feedback_data` returns it
(lines 479-493): predicted quality, the human rating, and the stored
weather snapshot. -/
structure FeedbackRow where
  predicted : ℚ
  actual : ℤ
  weather : WeatherData
deriving DecidableEq

/-- The figures `calculate_model_accuracy` prints (lines 505-518). The
source's RMSE is the square root of `mse`; the report carries the mean
squared error itself so every field stays rational. -/
structure AccuracyReport where
  count : ℕ
  mae : ℚ
  mse : ℚ
  mean_predicted : ℚ
  mean_actual : ℚ
  bias : ℚ
deriving DecidableEq

/-- `train_model.calculate_model_accuracy` (lines 499-518): with no
feedback rows it only prints a notice, modelled as `none`; otherwise it
computes the error statistics over all rows. -/
def calculate_model_accuracy (data : List FeedbackRow) : Option AccuracyReport :=
  if data = [] then none
  else
    let n : ℚ := data.length
    let mean_p := (data.map fun d => d.predicted).sum / n
    let mean_a := (data.map fun d => (d.actual : ℚ)).sum / n
    some
      { count := data.length
        mae := (data.map fun d => abs (d.predicted - (d.actual : ℚ))).sum / n
        mse := (data.map fun d => (d.predicted - (d.actual : ℚ)) ^ 2).sum / n
        mean_predicted := mean_p
        mean_actual := mean_a
        bias := mean_p - mean_a }

/-- The per-feature value columns `analyze_feature_correlations` builds
(lines 536-548), paired with the rating column it correlates them
against; the Pearson coefficients the source prints are functions of
these columns. -/
structure CorrelationReport where
  cloud_cover : List ℚ
  humidity : List ℚ
  visibility : List ℚ
  pm25 : List ℚ
  actuals : List ℚ
deriving DecidableEq

/-- `train_model.analyze_feature_correlations` (lines 528-564): below 3
feedback rows it prints an insufficient-data notice and returns, modelled
as `none`; otherwise it extracts the feature columns (visibility and
PM2.5 with the source's `dict.get` defaults, cloud cover and humidity
present in every stored snapshot, here read with the fetcher's own
field defaults). -/
def analyze_feature_correlations (data : List FeedbackRow) : Option CorrelationReport :=
  if data.length < 3 then none
  else
    some
      { cloud_cover := data.map fun d => d.weather.cloud_cover.getD 50
        humidity := data.map fun d => d.weather.humidity.getD 60
        visibility := data.map fun d => d.weather.visibility.getD 10000
        pm25 := data.map fun d => d.weather.pm25.getD 15
        actuals := data.map fun d => (d.actual : ℚ) }

/-- The warnings `suggest_weight_adjustments` can print (lines 573-601):
the mean signed error, and the three threshold-gated flags. -/
structure SuggestionReport where
  avg_error : ℚ
  over_predicting : Bool
  under_predicting : Bool
  high_cloud_flag : Bool
  low_humidity_flag : Bool
deriving DecidableEq

/-- `train_model.suggest_weight_adjustments` (lines 567-601): below 5
feedback rows it prints an insufficient-data notice and returns, modelled
as `none`; otherwise it derives the mean signed error, the |error| > 1
over/under-prediction warnings, and the high-cloud / low-humidity segment
flags (each needing at least 2 rows in the segment and a mean segment
error beyond ±1.5). -/
def suggest_weight_adjustments (data : List FeedbackRow) : Option SuggestionReport :=
  if data.length < 5 then none
  else
    let errors := data.map fun d => d.predicted - (d.actual : ℚ)
    let avg_error := errors.sum / data.length
    let high_clouds := data.filter fun d => 70 < d.weather.cloud_cover.getD 50
    let low_humidity := data.filter fun d => d.weather.humidity.getD 60 < 40
    some
      { avg_error := avg_error
        over_predicting := 1 < abs avg_error ∧ 0 < avg_error
        under_predicting := 1 < abs avg_error ∧ ¬(0 < avg_error)
        high_cloud_flag :=
          2 ≤ high_clouds.length ∧
            3/2 < (high_clouds.map fun d => d.predicted - (d.actual : ℚ)).sum /
              high_clouds.length
        low_humidity_flag :=
          2 ≤ low_humidity.length ∧
            (low_humidity.map fun d => d.predicted - (d.actual : ℚ)).sum /
              low_humidity.length < -(3/2) }

/-- The amended centering formula: every sub-score — the visibility term
included — is centred by half of the corresponding configured weight.
`predict` agrees with it exactly on configurations whose cloud-cover,
humidity and visibility weights equal the source defaults 3, 1.5 and 2. -/
def predict_half_centering (w : Weights) (d : WeatherData) : ℚ :=
  let cloud_cover := d.cloud_cover.getD 50
  let cloud_deviation := abs (cloud_cover - w.cloud_cover_optimal * 100)
  let cloud_term :=
    (100 - cloud_deviation) / 100 * w.cloud_cover_weight - w.cloud_cover_weight / 2
  let humidity := d.humidity.getD 60
  let humidity_term :=
    (100 - humidity) / 100 * w.humidity_weight - w.humidity_weight / 2
  let visibility := d.visibility.getD 10000
  let visibility_term :=
    min (visibility / 1000 / 10) 1 * w.visibility_weight - w.visibility_weight / 2
  let pm25 := d.pm25.getD 15
  let dust_term : ℚ :=
    if 10 ≤ pm25 ∧ pm25 ≤ 35 then (1/2) * w.dust_weight
    else if pm25 < 10 then -((3/10) * w.dust_weight)
    else -((1/2) * w.dust_weight)
  max 1 (min 10 (5 + cloud_term + humidity_term + visibility_term + dust_term))

/-- A weather snapshot with every optional field absent. -/
def w0 : WeatherData := ⟨none, none, none, none⟩

/-- A concrete in-range observation: 40% cloud, 60% humidity, 10 km
visibility, PM2.5 of 15. -/
def obs_neutral : WeatherData := ⟨some 40, some 60, some 10000, some 15⟩

/-- The same observation with an out-of-range 200% cloud cover. -/
def obs_over : WeatherData := ⟨some 200, some 60, some 10000, some 15⟩

/-- The default configuration with its cloud-cover weight moved to 4. -/
def weights_cw4 : Weights := { default_weights with cloud_cover_weight := 4 }

/-- An unresolved record created at time 1. -/
def rec1 : PredictionRecord := ⟨1, 5, none, none, w0⟩

/-- An unresolved record created at time 2. -/
def rec2 : PredictionRecord := ⟨2, 5, none, none, w0⟩

/-- A record whose feedback is already recorded. -/
def rec_resolved : PredictionRecord := ⟨1, 5, some 8, some 2, w0⟩

/-- Two resolved feedback rows, for exercising the analyzer thresholds. -/
def data_two : List FeedbackRow := [⟨5, 5, w0⟩, ⟨6, 7, w0⟩]

theorem resolve_first_at_preserves_resolved (rating : ℤ) (now t : ℕ) :
    ∀ (l : List PredictionRecord) (i : ℕ) (r : PredictionRecord) (q : ℤ),
      l.get? i = some r → r.actual_quality = some q →
      (resolve_first_at rating now t l).get? i = some r
  | [], i, _, _, h, _ => by simp at h
  | a :: l, i, r, q, h, hq => by
    unfold resolve_first_at
    split
    · rename_i hcond
      cases i with
      | zero =>
        rw [List.get?_cons_zero] at h
        rw [Option.some_inj] at h
        subst h
        rw [hq] at hcond
        exact absurd hcond.1 (by simp)
      | succ n =>
        rw [List.get?_cons_succ] at h
        simpa using h
    · cases i with
      | zero => simpa using h
      | succ n =>
        rw [List.get?_cons_succ] at h
        simpa using resolve_first_at_preserves_resolved rating now t l n r q h hq

theorem latest_unresolved_time_of_all_resolved (db : List PredictionRecord)
    (hres : ∀ r ∈ db, r.actual_quality ≠ none) :
    latest_unresolved_time db = none := by
  unfold latest_unresolved_time
  have hfilter : db.filter (fun r => r.actual_quality.isNone) = [] := by
    rw [List.filter_eq_nil_iff]
    intro a ha
    simpa [Option.isNone_iff_eq_none] using hres a ha
  rw [hfilter]
  rfl

/-- C2: for every weight configuration and every weather input — the
function is total, so pathological cloud cover, humidity or PM2.5 values
are included — `predict` returns a score in the closed interval [1,10],
by the final clamp of line 100. -/
theorem c2_predict_in_range (w : Weights) (d : WeatherData) :
    1 ≤ predict w d ∧ predict w d ≤ 10 :=
  ⟨le_max_left 1 _, max_le (by norm_num) (min_le_left 10 _)⟩

/-- C8: the dust term of `predict` adds `0.5 * dustWeight` for PM2.5 in
the inclusive moderate band [10,35], subtracts `0.3 * dustWeight` below
the band and `0.5 * dustWeight` above it, on top of the running score
accumulated before the dust branch (lines 89-97). -/
theorem c8_dust_term (w : Weights) (d : WeatherData) (pm : ℚ) :
    predict w { d with pm25 := some pm } =
      max 1 (min 10 (score_before_dust w d +
        (if 10 ≤ pm ∧ pm ≤ 35 then (1/2) * w.dust_weight
         else if pm < 10 then -((3/10) * w.dust_weight)
         else -((1/2) * w.dust_weight)))) := by
  simp only [predict, score_before_dust, Option.getD_some]
  split_ifs <;>
    exact congrArg (fun s : ℚ => max 1 (min 10 s)) (by ring)

/-- C10: an observation lacking the cloud-cover field scores exactly as
the same observation with 50% cloud cover — line 73 defaults the missing
key to 50. -/
theorem c10_cloud_cover_defaults_to_50 (w : Weights) (d : WeatherData) :
    predict w { d with cloud_cover := none } =
      predict w { d with cloud_cover := some 50 } := rfl

/-- C3 fails: the code centres with the fixed constants 1.5, 0.75 and
1.0 (lines 76, 81, 87), not with the configured weights. Already at the
default weights the spec formula disagrees — its visibility term
subtracts the full weight 2 where the code subtracts 1 — and moving the
cloud-cover weight to 4 shows the cloud constant does not track the
weight either. -/
theorem c3_centering_counterexample :
    predict default_weights obs_neutral ≠
        predict_spec_centering default_weights obs_neutral ∧
      predict weights_cw4 obs_neutral ≠
        predict_spec_centering weights_cw4 obs_neutral := by
  have h1 : predict default_weights obs_neutral = 43/5 := by
    norm_num [predict, default_weights, obs_neutral, min_def, max_def, abs_eq_max_neg]
  have h2 : predict_spec_centering default_weights obs_neutral = 38/5 := by
    norm_num [predict_spec_centering, default_weights, obs_neutral, min_def, max_def,
      abs_eq_max_neg]
  have h3 : predict weights_cw4 obs_neutral = 48/5 := by
    norm_num [predict, default_weights, weights_cw4, obs_neutral, min_def, max_def,
      abs_eq_max_neg]
  have h4 : predict_spec_centering weights_cw4 obs_neutral = 81/10 := by
    norm_num [predict_spec_centering, default_weights, weights_cw4, obs_neutral, min_def,
      max_def, abs_eq_max_neg]
  rw [h1, h2, h3, h4]
  norm_num

/-- C3 amended: the engine subtracts the fixed constants 1.5, 0.75 and
1.0 — half of each of the default cloud-cover, humidity and visibility
weights (half, not the full weight, for visibility as well) — so the
zero-centering of the claim holds exactly for configurations whose
cloud-cover, humidity and visibility weights are the defaults 3, 1.5
and 2, with every term centred by half its weight. -/
theorem c3_centering_amended (w : Weights) (d : WeatherData)
    (hc : w.cloud_cover_weight = 3) (hh : w.humidity_weight = 3/2)
    (hv : w.visibility_weight = 2) :
    predict w d = predict_half_centering w d := by
  simp only [predict, predict_half_centering, hc, hh, hv]
  split_ifs <;>
    exact congrArg (fun s : ℚ => max 1 (min 10 s)) (by ring)

theorem c3_centering_witness :
    predict default_weights obs_neutral =
      predict_half_centering default_weights obs_neutral :=
  c3_centering_amended default_weights obs_neutral rfl rfl rfl

/-- C5 fails: no clamping of cloud cover or humidity happens anywhere —
`run_prediction` (lines 256-261) passes the fetched dict to the scorer
unchanged, and `predict` reads the raw values. An observation with 200%
cloud cover scores 19/5 while its [0,100]-clamped version scores 34/5. -/
theorem c5_no_input_clamping_counterexample :
    run_prediction_score default_weights obs_over ≠
      run_prediction_score default_weights (clamp_observation obs_over) := by
  have h1 : run_prediction_score default_weights obs_over = 19/5 := by
    norm_num [run_prediction_score, predict, default_weights, obs_over, min_def, max_def,
      abs_eq_max_neg]
  have h2 : run_prediction_score default_weights (clamp_observation obs_over) = 34/5 := by
    norm_num [run_prediction_score, predict, clamp_observation, clamp_pct, default_weights,
      obs_over, min_def, max_def, abs_eq_max_neg]
  rw [h1, h2]
  norm_num

/-- C5 amended: the prediction cycle applies no clamping; scoring agrees
with scoring the clamped observation only because the fetched percentage
fields already lie in [0,100], on which the spec's clamp is the
identity. -/
theorem c5_clamp_identity_in_range (w : Weights) (d : WeatherData) (c h : ℚ)
    (hcc : d.cloud_cover = some c) (hhum : d.humidity = some h)
    (h0c : 0 ≤ c) (h1c : c ≤ 100) (h0h : 0 ≤ h) (h1h : h ≤ 100) :
    run_prediction_score w d = run_prediction_score w (clamp_observation d) := by
  obtain ⟨cc, hu, vi, pm⟩ := d
  have hcc2 : cc = some c := hcc
  have hhum2 : hu = some h := hhum
  subst hcc2
  subst hhum2
  have hobs : clamp_observation ⟨some c, some h, vi, pm⟩ = ⟨some c, some h, vi, pm⟩ := by
    simp [clamp_observation, clamp_pct, min_eq_right h1c, max_eq_right h0c,
      min_eq_right h1h, max_eq_right h0h]
  rw [hobs]

theorem c5_clamp_identity_witness :
    run_prediction_score default_weights obs_neutral =
      run_prediction_score default_weights (clamp_observation obs_neutral) :=
  c5_clamp_identity_in_range default_weights obs_neutral 40 60 rfl rfl
    (by norm_num) (by norm_num) (by norm_num) (by norm_num)

/-- C1 fails: the `UPDATE` orders the unresolved rows by `created_at`
descending and takes one (lines 303-308), so a valid rating resolves the
newest unresolved record. With unresolved records created at times 1 and
2, the rating 7 lands on the record from time 2, and the record from
time 1 stays unresolved — the opposite of the claimed earliest-first
policy. -/
theorem c1_earliest_first_counterexample :
    (process_feedback_msg [rec1, rec2] 9 ⟨"7", 0⟩).1 =
        [rec1, { rec2 with actual_quality := some 7, feedback_time := some 9 }] ∧
      ¬(process_feedback_msg [rec1, rec2] 9 ⟨"7", 0⟩).1 =
        [{ rec1 with actual_quality := some 7, feedback_time := some 9 }, rec2] := by
  decide

/-- C1 amended: latest-first resolution — given two unresolved records
with `createdAt` T1 < T2, a single valid rating resolves the record
created at T2 and leaves the record created at T1 unresolved. -/
theorem c1_latest_first_amended (r1 r2 : PredictionRecord) (now : ℕ) (cid : ℤ)
    (text : String) (rating : ℤ)
    (hp : pythonInt text = some rating) (h1 : 1 ≤ rating) (h2 : rating ≤ 10)
    (hu1 : r1.actual_quality = none) (hu2 : r2.actual_quality = none)
    (hlt : r1.created_at < r2.created_at) :
    process_feedback_msg [r1, r2] now ⟨text, cid⟩ =
      ([r1, { r2 with actual_quality := some rating, feedback_time := some now }],
        [(cid, rating)]) := by
  have hmax : latest_unresolved_time [r1, r2] = some r2.created_at := by
    simp [latest_unresolved_time, hu1, hu2]
    exact hlt.le
  unfold process_feedback_msg
  rw [hp]
  simp only [h1, h2, and_self, if_true]
  rw [hmax]
  simp [resolve_first_at, hu1, hu2, hlt.ne]

theorem c1_latest_first_witness :
    process_feedback_msg [rec1, rec2] 9 ⟨"7", 0⟩ =
      ([rec1, { rec2 with actual_quality := some 7, feedback_time := some 9 }],
        [(0, 7)]) :=
  c1_latest_first_amended rec1 rec2 9 0 "7" 7 rfl (by decide) (by decide) rfl rfl
    (by decide)

/-- C4: at-most-once feedback — a record whose `actualQuality` is already
set is left exactly as it is by any further feedback run: the `UPDATE`
only matches rows with `actual_quality IS NULL` (line 306). -/
theorem c4_at_most_once (db : List PredictionRecord) (now : ℕ) (msg : Message)
    (i : ℕ) (r : PredictionRecord) (q : ℤ)
    (hr : db.get? i = some r) (hq : r.actual_quality = some q) :
    (process_feedback_msg db now msg).1.get? i = some r := by
  unfold process_feedback_msg
  cases hp : pythonInt msg.text with
  | none => simpa using hr
  | some rating =>
    by_cases hok : 1 ≤ rating ∧ rating ≤ 10
    · simp only [hok, and_self, if_true]
      cases hl : latest_unresolved_time db with
      | none => simpa using hr
      | some t =>
        simpa using resolve_first_at_preserves_resolved rating now t db i r q hr hq
    · simp only [if_neg hok]
      simpa using hr

theorem c4_at_most_once_witness :
    (process_feedback_msg [rec_resolved] 9 ⟨"7", 0⟩).1.get? 0 = some rec_resolved :=
  c4_at_most_once [rec_resolved] 9 ⟨"7", 0⟩ 0 rec_resolved 8 rfl rfl

/-- C6: the reconciler accepts a message only when its stripped text
parses as an integer in [1,10]; every rejected text leaves the table
untouched and sends nothing (the rejection path is a silent fall-through,
lines 296-318). The texts "hello", "11", "0", "-3" and "7.5" are all
rejected, while "7", "10" and "1" are accepted and acknowledged. -/
theorem c6_feedback_validation (db : List PredictionRecord) (now : ℕ) (cid : ℤ) :
    (∀ text : String, accepted_rating text = none →
        process_feedback_msg db now ⟨text, cid⟩ = (db, [])) ∧
    accepted_rating "hello" = none ∧ accepted_rating "11" = none ∧
    accepted_rating "0" = none ∧ accepted_rating "-3" = none ∧
    accepted_rating "7.5" = none ∧
    accepted_rating "7" = some 7 ∧ accepted_rating "10" = some 10 ∧
    accepted_rating "1" = some 1 ∧
    (process_feedback_msg db now ⟨"7", cid⟩).2 = [(cid, 7)] ∧
    (process_feedback_msg db now ⟨"10", cid⟩).2 = [(cid, 10)] ∧
    (process_feedback_msg db now ⟨"1", cid⟩).2 = [(cid, 1)] := by
  refine ⟨?_, by decide, by decide, by decide, by decide, by decide, by decide, by decide,
    by decide, rfl, rfl, rfl⟩
  intro text hnone
  unfold accepted_rating at hnone
  unfold process_feedback_msg
  cases hp : pythonInt text with
  | none => rfl
  | some r =>
    rw [hp] at hnone
    by_cases hok : 1 ≤ r ∧ r ≤ 10
    · simp [hok] at hnone
    · simp [hok]

theorem c6_feedback_validation_witness :
    process_feedback_msg [] 0 ⟨"xyz", 2⟩ = ([], []) :=
  (c6_feedback_validation [] 0 2).1 "xyz" (by decide)

/-- C7 fails: the confirmation is not tied to a successful resolution.
On an empty table the valid rating "7" mutates nothing — correctly, and
silently — yet the confirmation for rating 7 is still sent to the chat,
because line 313 runs whenever the rating is in range, regardless of how
many rows the `UPDATE` matched. -/
theorem c7_confirmation_counterexample :
    (process_feedback_msg [] 0 ⟨"7", 3⟩).1 = [] ∧
      (process_feedback_msg [] 0 ⟨"7", 3⟩).2 = [(3, 7)] := by
  decide

/-- C7 amended: when no unresolved record exists, a valid rating leaves
every record unchanged and raises no error, but the confirmation via the
delivery adapter is sent for every in-range rating whether or not a
record was resolved. -/
theorem c7_no_unresolved_amended (db : List PredictionRecord) (now : ℕ) (cid : ℤ)
    (text : String) (rating : ℤ)
    (hp : pythonInt text = some rating) (h1 : 1 ≤ rating) (h2 : rating ≤ 10)
    (hres : ∀ r ∈ db, r.actual_quality ≠ none) :
    process_feedback_msg db now ⟨text, cid⟩ = (db, [(cid, rating)]) := by
  unfold process_feedback_msg
  rw [hp]
  simp only [h1, h2, and_self, if_true]
  rw [latest_unresolved_time_of_all_resolved db hres]

theorem c7_no_unresolved_witness :
    process_feedback_msg [rec_resolved] 4 ⟨"8", 5⟩ = ([rec_resolved], [(5, 8)]) :=
  c7_no_unresolved_amended [rec_resolved] 4 5 "8" 8 rfl (by decide) (by decide)
    (by decide)

/-- C9: with exactly 2 resolved records the correlation sub-report is
skipped with its insufficient-data notice while the accuracy (MAE/RMSE)
sub-report still computes, and the weight-adjustment sub-report is also
skipped; in general the correlation sub-report runs precisely from 3
records and the weight-adjustment sub-report precisely from 5. -/
theorem c9_analyzer_thresholds (data : List FeedbackRow) (hlen : data.length = 2) :
    analyze_feature_correlations data = none ∧
    (calculate_model_accuracy data).isSome = true ∧
    suggest_weight_adjustments data = none ∧
    (∀ d : List FeedbackRow,
      (analyze_feature_correlations d).isSome = true ↔ 3 ≤ d.length) ∧
    (∀ d : List FeedbackRow,
      (suggest_weight_adjustments d).isSome = true ↔ 5 ≤ d.length) := by
  refine ⟨?_, ?_, ?_, ?_, ?_⟩
  · simp [analyze_feature_correlations, hlen]
  · have hne : data ≠ [] := by
      intro h
      rw [h] at hlen
      simp at hlen
    simp [calculate_model_accuracy, hne]
  · simp [suggest_weight_adjustments, hlen]
  · intro d
    by_cases h : d.length < 3
    · simp [analyze_feature_correlations, h]
      try omega
    · simp [analyze_feature_correlations, h]
      try omega
  · intro d
    by_cases h : d.length < 5
    · simp [suggest_weight_adjustments, h]
      try omega
    · simp [suggest_weight_adjustments, h]
      try omega

theorem c9_analyzer_thresholds_witness :
    analyze_feature_correlations data_two = none ∧
      (calculate_model_accuracy data_two).isSome = true ∧
      suggest_weight_adjustments data_two = none := by
  have h := c9_analyzer_thresholds data_two rfl
  exact ⟨h.1, h.2.1, h.2.2.1⟩
